import Mathlib

/-!
Shallow embedding of the `purple_haze` air-quality pipeline
(`src/purple_haze/air.py`) and verification of its specification.

Numeric values are modelled as `ℚ`; a missing value (NaN in the numpy
source) is modelled as `none : Option ℚ`.  Fallible Python code is
modelled with `Except String`.
-/

namespace PurpleHaze

/- Allow the kernel and `decide` to evaluate rational arithmetic on the
concrete inputs appearing below (these library definitions are otherwise
shielded from unfolding). -/
attribute [local semireducible] Rat.add Rat.mul Rat.inv Rat.sub Rat.ofScientific

/-! ### `np.round` — banker's rounding (round half to even), used by `aqi` -/

theorem rat_floor_eq (q : ℚ) : Rat.floor q = ⌊q⌋ := by
  rw [Rat.floor_def', Rat.floor_def]

/-- `np.round(q)` to the nearest integer, rounding halves to the even
integer, as IEEE/numpy do. -/
def rnd (q : ℚ) : ℤ :=
  if q - q.floor < 1/2 then q.floor
  else if 1/2 < q - q.floor then q.floor + 1
  else if 2 ∣ q.floor then q.floor else q.floor + 1

/-- `np.round(q, 1)`: round to one decimal place. -/
def round1 (q : ℚ) : ℚ := (rnd (10 * q) : ℚ) / 10

theorem rnd_bounds (q : ℚ) : ⌊q⌋ ≤ rnd q ∧ rnd q ≤ ⌊q⌋ + 1 := by
  unfold rnd
  rw [rat_floor_eq]
  split_ifs <;> omega

theorem rnd_nonneg {q : ℚ} (h : 0 ≤ q) : 0 ≤ rnd q := by
  have := (rnd_bounds q).1
  have := Int.floor_nonneg.2 h
  omega

theorem rnd_mono {x y : ℚ} (h : x ≤ y) : rnd x ≤ rnd y := by
  rcases lt_or_le ⌊x⌋ ⌊y⌋ with hf | hf
  · have h1 := (rnd_bounds x).2
    have h2 := (rnd_bounds y).1
    omega
  · have hfe : ⌊x⌋ = ⌊y⌋ := le_antisymm (Int.floor_le_floor h) hf
    unfold rnd
    rw [rat_floor_eq, rat_floor_eq, hfe]
    split_ifs <;> first | omega | linarith

/-! ### `aqi` — EPA piecewise-linear AQI from PM2.5 (air.py lines 242-322) -/

/-- One EPA breakpoint category, the dictionaries `green` … `maroon` of `aqi`. -/
structure Category where
  aqi_low : ℚ
  aqi_hi : ℚ
  pm_low : ℚ
  pm_hi : ℚ
deriving DecidableEq, Repr

def green : Category := ⟨0, 50, 0, 12⟩

def yellow : Category := ⟨51, 100, 12.1, 35.4⟩

def orange : Category := ⟨101, 150, 35.5, 55.4⟩

def red : Category := ⟨151, 200, 55.5, 150.4⟩

def purple : Category := ⟨201, 300, 150.5, 250.4⟩

def maroon : Category := ⟨301, 500, 250.5, 500.4⟩

def colors : List Category := [green, yellow, orange, red, purple, maroon]

/-- The category-assignment loop of `aqi`: the first color whose inclusive
`[pm_low, pm_hi]` range contains `p` (`categorized` stays false when none does). -/
def findCat (p : ℚ) : Option Category :=
  colors.find? fun c => decide (c.pm_low ≤ p ∧ p ≤ c.pm_hi)

/-- The EPA formula applied with a category's breakpoints (air.py lines 318-320). -/
def epaFormula (cat : Category) (p : ℚ) : ℚ :=
  (cat.aqi_hi - cat.aqi_low) / (cat.pm_hi - cat.pm_low) * (p - cat.pm_low) + cat.aqi_low

/-- `air.aqi(pm25)`: raises `ValueError` on negative input, otherwise rounds to
one decimal, categorizes (falling back to the maroon category when no range
matches) and applies the EPA formula. -/
def aqi (pm25 : ℚ) : Except String ℚ :=
  if pm25 < 0 then .error "PM2.5 must be positive."
  else .ok (epaFormula ((findCat (round1 pm25)).getD maroon) (round1 pm25))

/-! #### Characterization of the category search on rounded (tenth-valued) inputs -/

/-- The category selected for the rounded value `k/10`, written directly as a
function of the integer `k` of tenths (with the maroon fallback above the table). -/
def gcat (k : ℤ) : Category :=
  if k ≤ 120 then green
  else if k ≤ 354 then yellow
  else if k ≤ 554 then orange
  else if k ≤ 1504 then red
  else if k ≤ 2504 then purple
  else maroon

theorem div10_le_num {k : ℤ} (m : ℤ) (c : ℚ) (hc : (m:ℚ) = 10 * c) : ((k:ℚ)/10 ≤ c) ↔ k ≤ m := by
  rw [div_le_iff₀ (by norm_num : (0:ℚ) < 10), mul_comm, ← hc, Int.cast_le]

theorem num_le_div10 {k : ℤ} (m : ℤ) (c : ℚ) (hc : (m:ℚ) = 10 * c) : (c ≤ (k:ℚ)/10) ↔ m ≤ k := by
  rw [le_div_iff₀ (by norm_num : (0:ℚ) < 10), mul_comm, ← hc, Int.cast_le]

theorem findCat_none {p : ℚ} (h : (500.4:ℚ) < p) : findCat p = none := by
  unfold findCat colors
  rw [List.find?_cons_of_neg, List.find?_cons_of_neg, List.find?_cons_of_neg,
      List.find?_cons_of_neg, List.find?_cons_of_neg, List.find?_cons_of_neg]
  · rfl
  all_goals simp only [green, yellow, orange, red, purple, maroon, decide_eq_true_eq,
    not_and, not_le]
  all_goals intro _; linarith

theorem findCat_some_tenths (k : ℤ) (hk : 0 ≤ k) (hk' : k ≤ 5004) :
    findCat ((k : ℚ)/10) = some (gcat k) := by
  have h0 : (0:ℚ) ≤ (k:ℚ)/10 := div_nonneg (by exact_mod_cast hk) (by norm_num)
  unfold gcat findCat colors
  by_cases h1 : k ≤ 120
  · rw [if_pos h1, List.find?_cons_of_pos]
    simp only [green, decide_eq_true_eq]
    exact ⟨h0, (div10_le_num 120 (12:ℚ) (by norm_num)).2 h1⟩
  · rw [if_neg h1, List.find?_cons_of_neg]
    swap
    · simp only [green, decide_eq_true_eq, not_and, not_le]
      intro _
      exact lt_of_lt_of_le (by norm_num) ((num_le_div10 121 (12.1:ℚ) (by norm_num)).2 (by omega))
    by_cases h2 : k ≤ 354
    · rw [if_pos h2, List.find?_cons_of_pos]
      simp only [yellow, decide_eq_true_eq]
      exact ⟨(num_le_div10 121 (12.1:ℚ) (by norm_num)).2 (by omega),
             (div10_le_num 354 (35.4:ℚ) (by norm_num)).2 h2⟩
    · rw [if_neg h2, List.find?_cons_of_neg]
      swap
      · simp only [yellow, decide_eq_true_eq, not_and, not_le]
        intro _
        exact lt_of_lt_of_le (by norm_num) ((num_le_div10 355 (35.5:ℚ) (by norm_num)).2 (by omega))
      by_cases h3 : k ≤ 554
      · rw [if_pos h3, List.find?_cons_of_pos]
        simp only [orange, decide_eq_true_eq]
        exact ⟨(num_le_div10 355 (35.5:ℚ) (by norm_num)).2 (by omega),
               (div10_le_num 554 (55.4:ℚ) (by norm_num)).2 h3⟩
      · rw [if_neg h3, List.find?_cons_of_neg]
        swap
        · simp only [orange, decide_eq_true_eq, not_and, not_le]
          intro _
          exact lt_of_lt_of_le (by norm_num) ((num_le_div10 555 (55.5:ℚ) (by norm_num)).2 (by omega))
        by_cases h4 : k ≤ 1504
        · rw [if_pos h4, List.find?_cons_of_pos]
          simp only [red, decide_eq_true_eq]
          exact ⟨(num_le_div10 555 (55.5:ℚ) (by norm_num)).2 (by omega),
                 (div10_le_num 1504 (150.4:ℚ) (by norm_num)).2 h4⟩
        · rw [if_neg h4, List.find?_cons_of_neg]
          swap
          · simp only [red, decide_eq_true_eq, not_and, not_le]
            intro _
            exact lt_of_lt_of_le (by norm_num)
              ((num_le_div10 1505 (150.5:ℚ) (by norm_num)).2 (by omega))
          by_cases h5 : k ≤ 2504
          · rw [if_pos h5, List.find?_cons_of_pos]
            simp only [purple, decide_eq_true_eq]
            exact ⟨(num_le_div10 1505 (150.5:ℚ) (by norm_num)).2 (by omega),
                   (div10_le_num 2504 (250.4:ℚ) (by norm_num)).2 h5⟩
          · rw [if_neg h5, List.find?_cons_of_neg]
            swap
            · simp only [purple, decide_eq_true_eq, not_and, not_le]
              intro _
              exact lt_of_lt_of_le (by norm_num)
                ((num_le_div10 2505 (250.5:ℚ) (by norm_num)).2 (by omega))
            rw [List.find?_cons_of_pos]
            simp only [maroon, decide_eq_true_eq]
            exact ⟨(num_le_div10 2505 (250.5:ℚ) (by norm_num)).2 (by omega),
                   (div10_le_num 5004 (500.4:ℚ) (by norm_num)).2 hk'⟩

theorem findCat_getD_tenths (k : ℤ) (hk : 0 ≤ k) :
    (findCat ((k : ℚ)/10)).getD maroon = gcat k := by
  by_cases hk' : k ≤ 5004
  · rw [findCat_some_tenths k hk hk']
    rfl
  · rw [findCat_none (lt_of_lt_of_le (by norm_num)
      ((num_le_div10 5005 (500.5:ℚ) (by norm_num)).2 (by omega)))]
    unfold gcat
    rw [if_neg (by omega), if_neg (by omega), if_neg (by omega), if_neg (by omega),
        if_neg (by omega)]
    rfl

theorem gcat_mem (k : ℤ) : gcat k ∈ colors := by
  unfold gcat colors
  split_ifs <;> simp

theorem gcat_bounds (k : ℤ) (h0 : 0 ≤ k) (h1 : k ≤ 5004) :
    (gcat k).pm_low ≤ (k:ℚ)/10 ∧ (k:ℚ)/10 ≤ (gcat k).pm_hi := by
  unfold gcat
  split_ifs with hA hB hC hD hE
  · simp only [green]
    exact ⟨div_nonneg (by exact_mod_cast h0) (by norm_num),
           (div10_le_num 120 _ (by norm_num)).2 hA⟩
  · simp only [yellow]
    exact ⟨(num_le_div10 121 _ (by norm_num)).2 (by omega),
           (div10_le_num 354 _ (by norm_num)).2 hB⟩
  · simp only [orange]
    exact ⟨(num_le_div10 355 _ (by norm_num)).2 (by omega),
           (div10_le_num 554 _ (by norm_num)).2 hC⟩
  · simp only [red]
    exact ⟨(num_le_div10 555 _ (by norm_num)).2 (by omega),
           (div10_le_num 1504 _ (by norm_num)).2 hD⟩
  · simp only [purple]
    exact ⟨(num_le_div10 1505 _ (by norm_num)).2 (by omega),
           (div10_le_num 2504 _ (by norm_num)).2 hE⟩
  · simp only [maroon]
    exact ⟨(num_le_div10 2505 _ (by norm_num)).2 (by omega),
           (div10_le_num 5004 _ (by norm_num)).2 h1⟩

/-! #### The AQI value as a function of the integer of tenths, and its monotonicity -/

/-- The value `aqi` returns on the rounded input `k/10`. -/
def gval (k : ℤ) : ℚ := epaFormula (gcat k) ((k:ℚ)/10)

theorem epaFormula_mono (c : Category)
    (h1 : 0 ≤ (c.aqi_hi - c.aqi_low) / (c.pm_hi - c.pm_low))
    {p q : ℚ} (hpq : p ≤ q) : epaFormula c p ≤ epaFormula c q := by
  unfold epaFormula
  have := mul_le_mul_of_nonneg_left (sub_le_sub_right hpq c.pm_low) h1
  linarith

theorem div10_mono {k l : ℤ} (h : k ≤ l) : (k:ℚ)/10 ≤ (l:ℚ)/10 := by
  apply div_le_div_of_nonneg_right ?_ (by norm_num)
  exact_mod_cast h

theorem gval_step (k : ℤ) (hk : 0 ≤ k) : gval k ≤ gval (k + 1) := by
  unfold gval gcat
  by_cases hA : k ≤ 120
  · by_cases hA' : k + 1 ≤ 120
    · rw [if_pos hA, if_pos hA']
      exact epaFormula_mono green (by norm_num [green]) (div10_mono (by omega))
    · have hk120 : k = 120 := by omega
      subst hk120
      norm_num [epaFormula, green, yellow]
  · by_cases hB : k ≤ 354
    · rw [if_neg hA, if_pos hB]
      by_cases hB' : k + 1 ≤ 354
      · rw [if_neg (by omega), if_pos hB']
        exact epaFormula_mono yellow (by norm_num [yellow]) (div10_mono (by omega))
      · have hk354 : k = 354 := by omega
        subst hk354
        norm_num [epaFormula, yellow, orange]
    · by_cases hC : k ≤ 554
      · rw [if_neg hA, if_neg hB, if_pos hC]
        by_cases hC' : k + 1 ≤ 554
        · rw [if_neg (by omega), if_neg (by omega), if_pos hC']
          exact epaFormula_mono orange (by norm_num [orange]) (div10_mono (by omega))
        · have hk554 : k = 554 := by omega
          subst hk554
          norm_num [epaFormula, orange, red]
      · by_cases hD : k ≤ 1504
        · rw [if_neg hA, if_neg hB, if_neg hC, if_pos hD]
          by_cases hD' : k + 1 ≤ 1504
          · rw [if_neg (by omega), if_neg (by omega), if_neg (by omega), if_pos hD']
            exact epaFormula_mono red (by norm_num [red]) (div10_mono (by omega))
          · have hk1504 : k = 1504 := by omega
            subst hk1504
            norm_num [epaFormula, red, purple]
        · by_cases hE : k ≤ 2504
          · rw [if_neg hA, if_neg hB, if_neg hC, if_neg hD, if_pos hE]
            by_cases hE' : k + 1 ≤ 2504
            · rw [if_neg (by omega), if_neg (by omega), if_neg (by omega),
                  if_neg (by omega), if_pos hE']
              exact epaFormula_mono purple (by norm_num [purple]) (div10_mono (by omega))
            · have hk2504 : k = 2504 := by omega
              subst hk2504
              norm_num [epaFormula, purple, maroon]
          · rw [if_neg hA, if_neg hB, if_neg hC, if_neg hD, if_neg hE,
                if_neg (by omega), if_neg (by omega), if_neg (by omega),
                if_neg (by omega), if_neg (by omega)]
            exact epaFormula_mono maroon (by norm_num [maroon]) (div10_mono (by omega))

theorem gval_mono {k l : ℤ} (hk : 0 ≤ k) (h : k ≤ l) : gval k ≤ gval l := by
  obtain ⟨d, rfl⟩ := Int.le.dest h
  clear h
  induction d with
  | zero => simp
  | succ n ih =>
    have hsucc : (k + ((n : ℕ) + 1 : ℕ) : ℤ) = (k + (n : ℕ)) + 1 := by push_cast; ring
    rw [hsucc]
    exact le_trans ih (gval_step (k + (n : ℕ)) (by omega))

/-- For non-negative input, `aqi` succeeds and returns the piecewise value at
the rounded input. -/
theorem aqi_ok (pm : ℚ) (h : 0 ≤ pm) : aqi pm = .ok (gval (rnd (10 * pm))) := by
  unfold aqi
  rw [if_neg (not_lt.2 h)]
  unfold round1 gval
  rw [findCat_getD_tenths _ (rnd_nonneg (by linarith))]

/-- **C3**: `aqi(pm25)` raises `ValueError` exactly when `pm25 < 0`; for
`pm25 ≥ 0` it never fails: it rounds to one decimal, selects the (first, hence
unique) EPA breakpoint category whose inclusive `[pm_low, pm_hi]` range contains
the rounded value, falls back to the Hazardous (maroon) category and
extrapolates when the rounded value exceeds 500.4, and returns the EPA linear
formula on the rounded value; in particular `aqi(0) = 0`, `aqi(12) = 50`, and
`aqi(45)` rounds to 124. -/
theorem C3_aqi_contract :
    (∀ pm : ℚ, pm < 0 → aqi pm = .error "PM2.5 must be positive.") ∧
    (∀ pm : ℚ, 0 ≤ pm → ∃ v : ℚ, aqi pm = .ok v) ∧
    (∀ pm : ℚ, 0 ≤ pm → round1 pm ≤ 500.4 →
      ∃ c ∈ colors, findCat (round1 pm) = some c ∧
        c.pm_low ≤ round1 pm ∧ round1 pm ≤ c.pm_hi ∧
        aqi pm = .ok (epaFormula c (round1 pm))) ∧
    (∀ pm : ℚ, 0 ≤ pm → 500.4 < round1 pm →
      findCat (round1 pm) = none ∧ aqi pm = .ok (epaFormula maroon (round1 pm))) ∧
    aqi 0 = .ok 0 ∧ aqi 12 = .ok 50 ∧
    (∃ v : ℚ, aqi 45 = .ok v ∧ rnd v = 124) := by
  refine ⟨?_, ?_, ?_, ?_, ?_, ?_, ?_⟩
  · intro pm h
    unfold aqi
    rw [if_pos h]
  · intro pm h
    exact ⟨_, aqi_ok pm h⟩
  · intro pm h hub
    have hk : 0 ≤ rnd (10 * pm) := rnd_nonneg (by linarith)
    have hr : round1 pm = ((rnd (10 * pm) : ℤ) : ℚ)/10 := rfl
    rw [hr] at hub ⊢
    have hk' : rnd (10 * pm) ≤ 5004 := (div10_le_num 5004 _ (by norm_num)).1 hub
    refine ⟨gcat (rnd (10 * pm)), gcat_mem _, findCat_some_tenths _ hk hk',
      (gcat_bounds _ hk hk').1, (gcat_bounds _ hk hk').2, ?_⟩
    rw [aqi_ok pm h]
    rfl
  · intro pm h hlb
    refine ⟨findCat_none hlb, ?_⟩
    unfold aqi
    rw [if_neg (not_lt.2 h), findCat_none hlb]
    rfl
  · rfl
  · rfl
  · exact ⟨24754/199, by rfl, by decide⟩

/-- Witness for C3 at a concrete input: a negative input produces the
`ValueError` message. -/
theorem C3_witness : aqi (-1) = .error "PM2.5 must be positive." :=
  C3_aqi_contract.1 (-1) (by norm_num)

/-- **C10**: the AQI calculator is monotone non-decreasing over its valid
domain: for all `0 ≤ x ≤ y`, both calls succeed and `aqi x ≤ aqi y`, including
across category boundaries and into the extrapolation region above 500.4. -/
theorem C10_aqi_monotone (x y : ℚ) (hx : 0 ≤ x) (hxy : x ≤ y) :
    ∃ a b : ℚ, aqi x = .ok a ∧ aqi y = .ok b ∧ a ≤ b := by
  refine ⟨_, _, aqi_ok x hx, aqi_ok y (hx.trans hxy), ?_⟩
  exact gval_mono (rnd_nonneg (by linarith)) (rnd_mono (by linarith))

/-- Witness for C10 at a concrete pair crossing the 12.0/12.1 category
boundary. -/
theorem C10_witness : ∃ a b : ℚ, aqi 12 = .ok a ∧ aqi (121/10) = .ok b ∧ a ≤ b :=
  C10_aqi_monotone 12 (121/10) (by norm_num) (by norm_num)

/-! ### Sensor data model and `Sensor.load` (air.py lines 725-808) -/

/-- A time series of measurements; `none` is a missing value (NaN). -/
abbrev Series := List (Option ℚ)

/-- The measurement fields of one loaded `DataStream` (`DataStream.load`),
after the renaming of air.py lines 525-537. -/
structure StreamData where
  pm1_cf1 : Series
  pm25_cf1 : Series
  pm10_cf1 : Series
  pm1_atm : Series
  pm25_atm : Series
  pm10_atm : Series
  temp : Series
  rh : Series
  pressure : Series
  uptime : Series
deriving DecidableEq, Inhabited, Repr

/-- A validated `Sensor`: its identity plus the four constituent streams
`str_a1` (channel A Primary), `str_a2` (A Secondary), `str_b1` (B Primary),
`str_b2` (B Secondary), as assigned at air.py lines 696-704. -/
structure Sensor where
  name : String
  lat : ℚ
  lon : ℚ
  loc : String
  str_a1 : StreamData
  str_a2 : StreamData
  str_b1 : StreamData
  str_b2 : StreamData
deriving DecidableEq, Inhabited, Repr

/-- The combined output dataset of `Sensor.load`. -/
structure Observation where
  lat : ℚ
  lon : ℚ
  temp : Series
  rh : Series
  pressure : Series
  uptime : Series
  pm1 : Series
  pm25 : Series
  pm10 : Series
  pm1b : Series
  pm25b : Series
  pm10b : Series
  aqi : Series
deriving DecidableEq, Repr

/-- The `data_dict` of particulate fields chosen at air.py lines 764-783. -/
structure PMDict where
  pm1 : Series
  pm25 : Series
  pm10 : Series
  pm1b : Series
  pm25b : Series
  pm10b : Series
deriving DecidableEq, Repr

/-- `np.vectorize(aqi)` over the pm2.5 series (air.py line 788).  A missing
value passes through as missing (`aqi(nan)` is `nan`: `nan < 0` is false and
the EPA formula arithmetic propagates `nan`); a negative value raises, which
aborts the whole `load` call. -/
def applyAqi (pm : Series) : Except String Series :=
  pm.mapM fun x =>
    match x with
    | none => .ok none
    | some v => (aqi v).map some

/-- Number of entries exactly equal to zero (`(dset.aqi == 0).sum()`,
air.py line 791); a NaN entry compares unequal to `0`. -/
def countZero (s : Series) : ℕ := (s.filter (fun x => decide (x = some 0))).length

/-- Number of numeric (non-NaN) entries (`(~np.isnan(dset.aqi)).sum()`,
air.py line 792). -/
def countNumeric (s : Series) : ℕ := (s.filter (fun x => x.isSome)).length

/-- The invalidation rule of air.py lines 790-794: if more than 10% of the
AQI measurements are zero, the whole series is replaced with NaNs.  When
`countNumeric s = 0`, numpy's `0/0` is `nan` and `nan > 0.1` is false, so the
series is kept; Lean's `0/0 = 0` convention reproduces exactly that outcome. -/
def invalidateAqi (s : Series) : Series :=
  if (countZero s : ℚ) / (countNumeric s : ℚ) > 1/10 then s.map (fun _ => none) else s

/-- `Sensor.load` (air.py lines 725-808): loads the four streams as the array
`dstreams = [str_a1, str_a2, str_b1, str_b2]`, takes the supplemental fields
from `dstreams[0]` and `dstreams[2]`, selects the particulate fields per the
indoor/outdoor rule, computes the AQI series elementwise from the resolved
pm2.5 series and applies the invalidation rule. -/
def Sensor.load (s : Sensor) : Except String Observation :=
  -- The source loads `dstreams = [str_a1.load(), str_a2.load(), str_b1.load(),
  -- str_b2.load()]` and indexes it positionally; the indices are written out
  -- here: dstreams[0] = str_a1, dstreams[1] = str_a2, dstreams[2] = str_b1,
  -- dstreams[3] = str_b2.
  let data_dict : PMDict :=
    if s.loc = "inside" then
      -- Use CF=1 data (air.py lines 766-773): dstreams[0] and dstreams[2].
      { pm1 := s.str_a1.pm1_cf1, pm25 := s.str_a1.pm25_cf1, pm10 := s.str_a1.pm10_cf1,
        pm1b := s.str_b1.pm1_cf1, pm25b := s.str_b1.pm25_cf1, pm10b := s.str_b1.pm10_cf1 }
    else
      -- Use CF=ATM data (air.py lines 776-783): dstreams[1]/[0] and dstreams[3]/[2].
      { pm1 := s.str_a2.pm1_atm, pm25 := s.str_a1.pm25_atm, pm10 := s.str_a2.pm10_atm,
        pm1b := s.str_b2.pm1_atm, pm25b := s.str_b1.pm25_atm, pm10b := s.str_b2.pm10_atm }
  (applyAqi data_dict.pm25).map fun rawAqi =>
    -- Supplemental fields (air.py lines 753-760): dstreams[0] and dstreams[2].
    { lat := s.lat, lon := s.lon,
      temp := s.str_a1.temp, rh := s.str_a1.rh,
      pressure := s.str_b1.pressure, uptime := s.str_a1.uptime,
      pm1 := data_dict.pm1, pm25 := data_dict.pm25, pm10 := data_dict.pm10,
      pm1b := data_dict.pm1b, pm25b := data_dict.pm25b, pm10b := data_dict.pm10b,
      aqi := invalidateAqi rawAqi }

theorem Sensor.load_inside (s : Sensor) (h : s.loc = "inside") :
    s.load = (applyAqi s.str_a1.pm25_cf1).map fun rawAqi =>
      { lat := s.lat, lon := s.lon,
        temp := s.str_a1.temp, rh := s.str_a1.rh,
        pressure := s.str_b1.pressure, uptime := s.str_a1.uptime,
        pm1 := s.str_a1.pm1_cf1, pm25 := s.str_a1.pm25_cf1, pm10 := s.str_a1.pm10_cf1,
        pm1b := s.str_b1.pm1_cf1, pm25b := s.str_b1.pm25_cf1, pm10b := s.str_b1.pm10_cf1,
        aqi := invalidateAqi rawAqi } := by
  unfold Sensor.load
  rw [if_pos h]

theorem Sensor.load_not_inside (s : Sensor) (h : ¬ s.loc = "inside") :
    s.load = (applyAqi s.str_a1.pm25_atm).map fun rawAqi =>
      { lat := s.lat, lon := s.lon,
        temp := s.str_a1.temp, rh := s.str_a1.rh,
        pressure := s.str_b1.pressure, uptime := s.str_a1.uptime,
        pm1 := s.str_a2.pm1_atm, pm25 := s.str_a1.pm25_atm, pm10 := s.str_a2.pm10_atm,
        pm1b := s.str_b2.pm1_atm, pm25b := s.str_b1.pm25_atm, pm10b := s.str_b2.pm10_atm,
        aqi := invalidateAqi rawAqi } := by
  unfold Sensor.load
  rw [if_neg h]

theorem ratio_gt_tenth {z n : ℕ} (hn : n ≠ 0) :
    ((z:ℚ)/(n:ℚ) > 1/10) ↔ 10 * z > n := by
  have hn' : (0:ℚ) < n := by exact_mod_cast Nat.pos_of_ne_zero hn
  rw [gt_iff_lt, div_lt_div_iff₀ (by norm_num : (0:ℚ) < 10) hn', one_mul, mul_comm]
  exact_mod_cast Iff.rfl

/-- **C2**: after the AQI series is computed elementwise from the resolved
pm2.5 series, if the count of exact zeros exceeds 10% of the count of numeric
entries the whole series is replaced by NaNs; at 10% or below everything
(zeros included) is kept unmodified; and a series with no numeric entries is
kept (the `0/0` ratio does not trigger invalidation). -/
theorem C2_invalidation :
    (∀ s : Series, countNumeric s ≠ 0 → 10 * countZero s > countNumeric s →
       invalidateAqi s = s.map (fun _ => none)) ∧
    (∀ s : Series, countNumeric s ≠ 0 → 10 * countZero s ≤ countNumeric s →
       invalidateAqi s = s) ∧
    (∀ s : Series, countNumeric s = 0 → invalidateAqi s = s) ∧
    (∀ sen : Sensor, ∀ obs : Observation, sen.load = .ok obs →
       ∃ raw : Series,
         applyAqi (if sen.loc = "inside"
           then sen.str_a1.pm25_cf1 else sen.str_a1.pm25_atm) = .ok raw ∧
         obs.aqi = invalidateAqi raw) := by
  refine ⟨?_, ?_, ?_, ?_⟩
  · intro s hn hz
    unfold invalidateAqi
    rw [if_pos ((ratio_gt_tenth hn).2 hz)]
  · intro s hn hz
    unfold invalidateAqi
    rw [if_neg]
    intro hgt
    exact absurd ((ratio_gt_tenth hn).1 hgt) (not_lt.2 hz)
  · intro s hn
    unfold invalidateAqi
    rw [if_neg]
    rw [hn]
    norm_num
  · intro sen obs h
    by_cases hloc : sen.loc = "inside"
    · rw [Sensor.load_inside sen hloc] at h
      rw [if_pos hloc]
      cases hA : applyAqi sen.str_a1.pm25_cf1 with
      | error e => rw [hA] at h; exact absurd h (by simp [Except.map])
      | ok raw =>
        rw [hA] at h
        simp only [Except.map] at h
        injection h with h
        exact ⟨raw, rfl, by rw [← h]⟩
    · rw [Sensor.load_not_inside sen hloc] at h
      rw [if_neg hloc]
      cases hA : applyAqi sen.str_a1.pm25_atm with
      | error e => rw [hA] at h; exact absurd h (by simp [Except.map])
      | ok raw =>
        rw [hA] at h
        simp only [Except.map] at h
        injection h with h
        exact ⟨raw, rfl, by rw [← h]⟩

/-- Witness for C2 at a concrete series: one zero among two numeric entries
(50% zeros) nulls the whole series. -/
theorem C2_witness :
    invalidateAqi [some 0, some 1] = [some 0, some 1].map (fun _ => none) :=
  C2_invalidation.1 [some 0, some 1] (by decide) (by decide)

/-- An indoor sensor whose channel-B Primary and Secondary streams carry
different CF=1 pm1 values, separating the two candidate sources. -/
def C1sensor : Sensor :=
  { name := "s", lat := 0, lon := 0, loc := "inside",
    str_a1 := default, str_a2 := default,
    str_b1 := { (default : StreamData) with pm1_cf1 := [some 1] },
    str_b2 := { (default : StreamData) with pm1_cf1 := [some 2] } }

/-- **C1 counterexample**: the claim says that for an Inside sensor the
channel-B particulate fields come from the channel-B *Secondary* stream's
CF=1 fields, but at this concrete indoor sensor `load` sources `pm1b` from
the channel-B *Primary* stream (`dstreams[2] = str_b1`), not the Secondary
one. -/
theorem C1_counterexample :
    C1sensor.loc = "inside" ∧
    ∃ obs : Observation, C1sensor.load = .ok obs ∧
      obs.pm1b ≠ C1sensor.str_b2.pm1_cf1 ∧
      obs.pm1b = C1sensor.str_b1.pm1_cf1 :=
  ⟨rfl, _, rfl, by decide, rfl⟩

/-- **C1 (amended)**: `Sensor.load` sources its fields per the fixed
cross-stream table: when the location is not Inside (Outside or Undefined),
`pm1` and `pm10` (both channels) come from the Secondary streams' ATM fields
while `pm2_5` (both channels) comes from the Primary streams' ATM field; when
Inside, all particulate fields come from the *Primary* streams' CF=1 fields
(channel A from the A-Primary stream, channel B from the B-Primary stream —
not the Secondary streams); and in both cases temperature, relative humidity
and uptime come from the channel-A Primary stream and pressure from the
channel-B Primary stream. -/
theorem C1_field_sourcing (s : Sensor) (obs : Observation) (h : s.load = .ok obs) :
    (obs.temp = s.str_a1.temp ∧ obs.rh = s.str_a1.rh ∧ obs.uptime = s.str_a1.uptime ∧
     obs.pressure = s.str_b1.pressure ∧ obs.lat = s.lat ∧ obs.lon = s.lon) ∧
    (s.loc = "inside" →
      obs.pm1 = s.str_a1.pm1_cf1 ∧ obs.pm25 = s.str_a1.pm25_cf1 ∧
      obs.pm10 = s.str_a1.pm10_cf1 ∧ obs.pm1b = s.str_b1.pm1_cf1 ∧
      obs.pm25b = s.str_b1.pm25_cf1 ∧ obs.pm10b = s.str_b1.pm10_cf1) ∧
    (s.loc ≠ "inside" →
      obs.pm1 = s.str_a2.pm1_atm ∧ obs.pm25 = s.str_a1.pm25_atm ∧
      obs.pm10 = s.str_a2.pm10_atm ∧ obs.pm1b = s.str_b2.pm1_atm ∧
      obs.pm25b = s.str_b1.pm25_atm ∧ obs.pm10b = s.str_b2.pm10_atm) := by
  by_cases hloc : s.loc = "inside"
  · rw [Sensor.load_inside s hloc] at h
    cases hA : applyAqi s.str_a1.pm25_cf1 with
    | error e => rw [hA] at h; exact absurd h (by simp [Except.map])
    | ok raw =>
      rw [hA] at h
      simp only [Except.map] at h
      injection h with h
      subst h
      exact ⟨⟨rfl, rfl, rfl, rfl, rfl, rfl⟩,
             fun _ => ⟨rfl, rfl, rfl, rfl, rfl, rfl⟩,
             fun hc => absurd hloc hc⟩
  · rw [Sensor.load_not_inside s hloc] at h
    cases hA : applyAqi s.str_a1.pm25_atm with
    | error e => rw [hA] at h; exact absurd h (by simp [Except.map])
    | ok raw =>
      rw [hA] at h
      simp only [Except.map] at h
      injection h with h
      subst h
      exact ⟨⟨rfl, rfl, rfl, rfl, rfl, rfl⟩,
             fun hc => absurd hc hloc,
             fun _ => ⟨rfl, rfl, rfl, rfl, rfl, rfl⟩⟩

/-- Witness for C1 at the concrete indoor sensor. -/
theorem C1_witness :
    ∃ obs : Observation, C1sensor.load = .ok obs ∧
      obs.pressure = C1sensor.str_b1.pressure ∧ obs.pm1b = C1sensor.str_b1.pm1_cf1 := by
  refine ⟨_, rfl, ?_⟩
  have h := C1_field_sourcing C1sensor _ rfl
  exact ⟨h.1.2.2.2.1, (h.2.1 rfl).2.2.2.1⟩

/-! ### Tract aggregation: `get_tract_mean_aqi` and `get_tract_exposure`
(air.py lines 110-239)

Both functions build sensors from a tract's file list, keep the outdoor ones,
load each and aggregate the AQI series.  `get_tract_mean_aqi` interpolates
every sensor's series onto the fixed hourly study grid
`np.arange("2020-05-01T00:00", "2020-11-02T00:00", 1h)` first.  Here a
sensor's (interpolated) AQI record is modelled as a function from the
grid-hour index (hours since 2020-05-01T00:00) to an optional value. -/

/-- Hours in the study grid: 185 days from 2020-05-01T00:00 (exclusive end
2020-11-02T00:00). -/
def gridLen : ℕ := 4440

/-- Grid index of 2020-09-08T00:00, the start of the smoke period. -/
def smokeStart : ℕ := 3120

/-- Grid index of 2020-09-19T23:00, the end of the smoke period. -/
def smokeEnd : ℕ := 3407

/-- `np.nanmean`: the mean of the non-missing entries, missing (NaN) when
there are none. -/
def nanmean (xs : List (Option ℚ)) : Option ℚ :=
  let vs := xs.filterMap id
  if vs.length = 0 then none else some (vs.sum / vs.length)

/-- An outdoor-or-not sensor together with its hourly AQI record, the part of
a loaded sensor that tract aggregation consumes. -/
structure GriddedSensor where
  loc : String
  aqi : ℕ → Option ℚ

/-- `ds.where((ds.time < start) | (ds.time > end))`: null out the smoke
window (air.py lines 220-223). -/
def maskSmoke (d : ℕ → Option ℚ) : ℕ → Option ℚ :=
  fun t => if smokeStart ≤ t ∧ t ≤ smokeEnd then none else d t

/-- `np.nanmean(np.stack([ds.aqi for ds in dsets]), axis=0)`: per grid hour,
the mean AQI across sensors ignoring missing values (air.py lines 164-165). -/
def hourlyMeans (dsets : List (ℕ → Option ℚ)) : List (Option ℚ) :=
  (List.range gridLen).map fun t => nanmean (dsets.map fun d => d t)

/-- `get_tract_mean_aqi` from the outdoor-sensor filtering on (air.py lines
141-169): null when the tract has no outdoor sensor, otherwise the time mean
of the hourly cross-sensor means.  NOTE: the smoke-period removal block
(air.py lines 156-161) is commented out in the source, so `include_smoke` is
never consulted. -/
def tractMeanAqi (sensors : List GriddedSensor) (include_smoke : Bool) : Option ℚ :=
  let outdoor := sensors.filter fun sen => decide (sen.loc = "outside")
  if outdoor.length = 0 then none
  else nanmean (hourlyMeans (outdoor.map (·.aqi)))

/-- Modelled from the spec: what `get_tract_mean_aqi` is documented to do
(its own docstring and spec §4.5 step 3) — when `include_smoke = false`,
null the smoke window out of each series *before* the cross-sensor and time
averaging.  This is the uncommented variant of air.py lines 156-161. -/
def tractMeanAqiSpec (sensors : List GriddedSensor) (include_smoke : Bool) : Option ℚ :=
  let outdoor := sensors.filter fun sen => decide (sen.loc = "outside")
  if outdoor.length = 0 then none
  else
    let dsets := outdoor.map (·.aqi)
    let dsets := if ¬ include_smoke then dsets.map maskSmoke else dsets
    nanmean (hourlyMeans dsets)

/-- A Python value passed as the `aqi_threshold` argument: a number, or a
non-numeric value (represented by its string case, the one the tests use). -/
inductive PyVal where
  | num (q : ℚ)
  | str (s : String)
deriving DecidableEq, Repr

/-- `get_tract_exposure` (air.py lines 172-239): `TypeError` when the
threshold is not numeric; null when the tract has no outdoor sensor;
otherwise minutes per day with AQI at or above the threshold, pooled over all
outdoor sensors, with the smoke window nulled first when
`include_smoke = false`.  The source performs no positivity check on the
threshold.  A missing AQI entry satisfies neither count (`nan >= t` is
false); numpy's `0/0` for a tract with no numeric measurement is `nan`,
modelled as `none`. -/
def tractExposure (sensors : List GriddedSensor) (aqi_threshold : PyVal)
    (include_smoke : Bool) : Except String (Option ℚ) :=
  match aqi_threshold with
  | .str _ => .error "AQI threshold must be numeric"
  | .num t =>
    let outdoor := sensors.filter fun sen => decide (sen.loc = "outside")
    if outdoor.length = 0 then .ok none
    else
      let dsets := outdoor.map (·.aqi)
      let dsets := if ¬ include_smoke then dsets.map maskSmoke else dsets
      let num_meas := (dsets.map fun d =>
        ((List.range gridLen).filterMap d).length).sum
      let num_exceed := (dsets.map fun d =>
        (((List.range gridLen).filterMap d).filter fun v => decide (t ≤ v)).length).sum
      let measurement_days : ℚ := (num_meas : ℚ) / 24
      let exceed_minutes : ℚ := (num_exceed : ℚ) * 60
      if measurement_days = 0 then .ok none
      else .ok (some (exceed_minutes / measurement_days))

/-- One outdoor sensor with a reading of 240 inside the smoke window (grid
hour 3200 = 2020-09-11T08:00) and a reading of 0 outside it. -/
def C4sensor : GriddedSensor :=
  { loc := "outside",
    aqi := fun t => if t = 3200 then some 240 else if t = 0 then some 0 else none }

/-- **C4**: the claim (and `get_tract_mean_aqi`'s own docstring) say that with
`include_smoke = false` the smoke window 2020-09-08T00:00 – 2020-09-19T23:00
is excluded, so samples in it never contribute to the mean.  The removal
block is commented out in the source: at this concrete input the in-window
sample 240 does contribute (`tractMeanAqi` yields 120, the mean of 0 and
240), while the documented behavior (`tractMeanAqiSpec`) yields 0. -/
theorem C4_smoke_not_removed :
    smokeStart ≤ 3200 ∧ 3200 ≤ smokeEnd ∧ C4sensor.aqi 3200 = some 240 ∧
    tractMeanAqi [C4sensor] false = some 120 ∧
    tractMeanAqiSpec [C4sensor] false = some 0 ∧
    tractMeanAqi [C4sensor] false ≠ tractMeanAqiSpec [C4sensor] false := by
  refine ⟨by decide, by decide, rfl, ?_, ?_, ?_⟩
  · set_option maxRecDepth 100000 in decide
  · set_option maxRecDepth 100000 in decide
  · set_option maxRecDepth 100000 in decide

/-- One outdoor sensor with a single AQI reading of 5 at grid hour 0. -/
def C5sensor : GriddedSensor :=
  { loc := "outside", aqi := fun t => if t = 0 then some 5 else none }

/-- **C5 counterexample**: a numeric threshold `-1 ≤ 0` does *not* fail with
`ValueError`; the aggregation runs and returns a value (every one of the
1 measurement-hours is ≥ -1, giving 60 min per 1/24 day = 1440 min/day). -/
theorem C5_counterexample :
    tractExposure [C5sensor] (.num (-1)) true = .ok (some 1440) := by
  set_option maxRecDepth 100000 in rfl

/-- **C5 (amended)**: the exposure calculation fails with `TypeError` for
every non-numeric threshold, before any aggregation; numeric thresholds are
*not* validated — there is no `ValueError` for `threshold ≤ 0`, and every
numeric threshold (non-positive ones included) proceeds to aggregation and
returns a result. -/
theorem C5_threshold_check :
    (∀ (sensors : List GriddedSensor) (inc : Bool) (s : String),
       tractExposure sensors (.str s) inc = .error "AQI threshold must be numeric") ∧
    (∀ (sensors : List GriddedSensor) (inc : Bool) (q : ℚ),
       ∃ r : Option ℚ, tractExposure sensors (.num q) inc = .ok r) := by
  constructor
  · intro sensors inc s
    rfl
  · intro sensors inc q
    unfold tractExposure
    dsimp only
    split_ifs <;> exact ⟨_, rfl⟩

/-- Witness for C5 at concrete inputs: a string threshold raises `TypeError`,
and a numeric threshold succeeds. -/
theorem C5_witness :
    tractExposure [C5sensor] (.str "100") true = .error "AQI threshold must be numeric" ∧
    ∃ r : Option ℚ, tractExposure [C5sensor] (.num 100) true = .ok r :=
  ⟨C5_threshold_check.1 [C5sensor] true "100", C5_threshold_check.2 [C5sensor] true 100⟩

/-- **C9**: for a tract whose sensors contain no outdoor sensor, both the
mean-AQI aggregation and the (numeric-threshold) exposure aggregation return
null rather than a number or an error. -/
theorem C9_no_outdoor_null (sensors : List GriddedSensor) (inc : Bool) (q : ℚ)
    (h : ∀ sen ∈ sensors, sen.loc ≠ "outside") :
    tractMeanAqi sensors inc = none ∧ tractExposure sensors (.num q) inc = .ok none := by
  have hf : sensors.filter (fun sen => decide (sen.loc = "outside")) = [] := by
    rw [List.filter_eq_nil_iff]
    intro sen hs
    simp [h sen hs]
  constructor
  · unfold tractMeanAqi
    rw [hf]
    rfl
  · unfold tractExposure
    dsimp only
    rw [hf]
    rfl

/-- Witness for C9: a tract with one indoor sensor. -/
theorem C9_witness :
    tractMeanAqi [{ loc := "inside", aqi := fun _ => none }] true = none ∧
    tractExposure [{ loc := "inside", aqi := fun _ => none }] (.num 100) true = .ok none :=
  C9_no_outdoor_null _ true 100 (by intro sen hs; simp at hs; rw [hs]; decide)

/-! ### `Sensor.__init__` validation (air.py lines 619-707) -/

/-- The identity attributes of one `DataStream` (parsed in
`DataStream.__init__`). -/
structure DS where
  filepath : String
  filename : String
  lat : ℚ
  lon : ℚ
  loc : String
  sensor_name : String
  channel : String
  data_type : ℤ
deriving DecidableEq, Inhabited, Repr

/-- The identity attributes a validated `Sensor.__init__` assigns
(air.py lines 682-693); the positional stream assignment of lines 696-704 is
the `Sensor` structure above. -/
structure SensorMeta where
  name : String
  lat : ℚ
  lon : ℚ
  loc : String
deriving DecidableEq, Repr

/-- The location-resolution rule of air.py lines 687-693. -/
def resolveLoc (locs : List String) : String :=
  if "inside" ∈ locs then "inside"
  else if "outside" ∈ locs then "outside"
  else "undefined"

/-- `Sensor.__init__` (air.py lines 629-693): the validation checks in source
order, then the resolved identity.  (The source's multi-line error strings are
reproduced with their line-continuation whitespace collapsed to one space.) -/
def mkSensor (data_streams : List DS) : Except String SensorMeta :=
  if data_streams.length ≠ 4 then
    .error "Input list must contain four DataStreams"
  else
    let chans := data_streams.map (·.channel)
    if chans.any fun c => decide (c ≠ "A" ∧ c ≠ "B") then
      .error "DataStreams must have valid channel IDs ('A' or 'B')"
    else
      let dtypes := data_streams.map (·.data_type)
      if dtypes.any fun d => decide (d ≠ 1 ∧ d ≠ 2) then
        .error "DataStreams must have known data_types (1 for Primary, 2 for Secondary)"
      else if dtypes.all fun d => decide (d ≠ 1) then
        .error "Input DataStreams must include at least one primary DataStream (data_type=1)"
      else
        -- len(set(...)) != len(...): a duplicate (channel, data_type) pair
        let stream_info_tuples := data_streams.map fun st => (st.channel, st.data_type)
        if stream_info_tuples.dedup.length ≠ stream_info_tuples.length then
          .error "DataStreams must all have unique combination of channel and data type."
        else
          let name0 := (data_streams.headD default).sensor_name
          let lat0 := (data_streams.headD default).lat
          let lon0 := (data_streams.headD default).lon
          let name_check := data_streams.all fun st => decide (st.sensor_name = name0)
          let lat_check := data_streams.all fun st => decide (st.lat = lat0)
          let lon_check := data_streams.all fun st => decide (st.lon = lon0)
          if ¬ name_check ∨ ¬ lat_check ∨ ¬ lon_check then
            .error "DataStreams must have matching sensor names and lat/lon coordinates."
          else
            let locs := data_streams.map (·.loc)
            if "inside" ∈ locs ∧ "outside" ∈ locs then
              .error "DataStreams have conflicting locations."
            else
              .ok { name := name0, lat := lat0, lon := lon0, loc := resolveLoc locs }

/-- The §3 sensor invariants the claim enumerates. -/
def SensorInvariants (ds : List DS) : Prop :=
  ds.length = 4 ∧
  (∀ st ∈ ds, st.channel = "A" ∨ st.channel = "B") ∧
  (∀ st ∈ ds, st.data_type = 1 ∨ st.data_type = 2) ∧
  (∃ st ∈ ds, st.data_type = 1) ∧
  (ds.map fun st => (st.channel, st.data_type)).Nodup ∧
  (∀ st ∈ ds, st.sensor_name = (ds.headD default).sensor_name ∧
              st.lat = (ds.headD default).lat ∧ st.lon = (ds.headD default).lon) ∧
  ¬("inside" ∈ ds.map DS.loc ∧ "outside" ∈ ds.map DS.loc)

instance (ds : List DS) : Decidable (SensorInvariants ds) := by
  unfold SensorInvariants
  infer_instance

theorem dedup_length_eq {α : Type} [DecidableEq α] (l : List α) :
    l.dedup.length = l.length ↔ l.Nodup := by
  constructor
  · intro h
    have heq := List.Sublist.eq_of_length (List.dedup_sublist l) h
    rw [← heq]
    exact List.nodup_dedup l
  · intro h
    rw [List.dedup_eq_self.2 h]

/-- A stream with the given channel and data type (fixed identity). -/
def mkDS (c : String) (dt : ℤ) : DS :=
  { filepath := "", filename := "", lat := 47, lon := -122, loc := "outside",
    sensor_name := "s", channel := c, data_type := dt }

/-- **C6**: sensor construction fails exactly when one of the enumerated
invariants is violated, each condition is independently triggerable (a
concrete input produces each distinct error), and on success the resolved
location is Inside if any stream says Inside, else Outside if any says
Outside, else Undefined. -/
theorem C6_sensor_validation :
    (∀ ds : List DS, (∃ m, mkSensor ds = .ok m) ↔ SensorInvariants ds) ∧
    (∀ ds : List DS, ∀ m : SensorMeta, mkSensor ds = .ok m →
       m.loc = resolveLoc (ds.map DS.loc)) ∧
    mkSensor [] = .error "Input list must contain four DataStreams" ∧
    mkSensor [mkDS "C" 1, mkDS "A" 2, mkDS "B" 1, mkDS "B" 2] =
      .error "DataStreams must have valid channel IDs ('A' or 'B')" ∧
    mkSensor [mkDS "A" 0, mkDS "A" 2, mkDS "B" 1, mkDS "B" 2] =
      .error "DataStreams must have known data_types (1 for Primary, 2 for Secondary)" ∧
    mkSensor [mkDS "A" 2, mkDS "A" 2, mkDS "B" 2, mkDS "B" 2] =
      .error "Input DataStreams must include at least one primary DataStream (data_type=1)" ∧
    mkSensor [mkDS "A" 1, mkDS "A" 1, mkDS "B" 1, mkDS "B" 2] =
      .error "DataStreams must all have unique combination of channel and data type." ∧
    mkSensor [{ mkDS "A" 1 with sensor_name := "t" }, mkDS "A" 2, mkDS "B" 1, mkDS "B" 2] =
      .error "DataStreams must have matching sensor names and lat/lon coordinates." ∧
    mkSensor [{ mkDS "A" 1 with loc := "inside" }, mkDS "A" 2, mkDS "B" 1, mkDS "B" 2] =
      .error "DataStreams have conflicting locations." := by
  refine ⟨?_, ?_, rfl, rfl, rfl, rfl, rfl, rfl, rfl⟩
  · intro ds
    unfold mkSensor SensorInvariants
    dsimp only
    split_ifs with h1 h2 h3 h4 h5 h6 h7
    · constructor
      · rintro ⟨m, hm⟩
        exact hm.elim
      · intro hinv
        exact absurd hinv.1 h1
    · constructor
      · rintro ⟨m, hm⟩
        exact hm.elim
      · intro hinv
        simp only [List.any_eq_true, List.mem_map, decide_eq_true_eq] at h2
        obtain ⟨c, ⟨st, hst, rfl⟩, hcA, hcB⟩ := h2
        rcases hinv.2.1 st hst with h | h
        · exact (hcA h).elim
        · exact (hcB h).elim
    · constructor
      · rintro ⟨m, hm⟩
        exact hm.elim
      · intro hinv
        simp only [List.any_eq_true, List.mem_map, decide_eq_true_eq] at h3
        obtain ⟨d, ⟨st, hst, rfl⟩, hd1, hd2⟩ := h3
        rcases hinv.2.2.1 st hst with h | h
        · exact (hd1 h).elim
        · exact (hd2 h).elim
    · constructor
      · rintro ⟨m, hm⟩
        exact hm.elim
      · intro hinv
        obtain ⟨st, hst, hdt⟩ := hinv.2.2.2.1
        simp only [List.all_eq_true, List.mem_map, decide_eq_true_eq] at h4
        exact (h4 st.data_type ⟨st, hst, rfl⟩ hdt).elim
    · constructor
      · rintro ⟨m, hm⟩
        exact hm.elim
      · intro hinv
        exact (h5 ((dedup_length_eq _).2 hinv.2.2.2.2.1)).elim
    · constructor
      · rintro ⟨m, hm⟩
        exact hm.elim
      · intro hinv
        rcases h6 with h | h | h <;>
          refine (h ?_).elim <;>
          simp only [List.all_eq_true, decide_eq_true_eq] <;>
          intro st hst
        · exact (hinv.2.2.2.2.2.1 st hst).1
        · exact (hinv.2.2.2.2.2.1 st hst).2.1
        · exact (hinv.2.2.2.2.2.1 st hst).2.2
    · constructor
      · rintro ⟨m, hm⟩
        exact hm.elim
      · intro hinv
        exact (hinv.2.2.2.2.2.2 h7).elim
    · constructor
      · intro _
        push_neg at h6
        refine ⟨by omega, ?_, ?_, ?_, (dedup_length_eq _).1 (by omega), ?_, h7⟩
        · intro st hst
          simp only [List.any_eq_true, List.mem_map, decide_eq_true_eq, not_exists,
            not_and] at h2
          by_cases hA : st.channel = "A"
          · exact Or.inl hA
          · right
            by_contra hB
            exact h2 st.channel ⟨st, hst, rfl⟩ hA hB
        · intro st hst
          simp only [List.any_eq_true, List.mem_map, decide_eq_true_eq, not_exists,
            not_and] at h3
          by_cases hd1 : st.data_type = 1
          · exact Or.inl hd1
          · right
            by_contra hd2
            exact h3 st.data_type ⟨st, hst, rfl⟩ hd1 hd2
        · simp only [List.all_eq_true, List.mem_map, decide_eq_true_eq, not_forall] at h4
          obtain ⟨d, hd, hd1⟩ := h4
          obtain ⟨st, hst, rfl⟩ := hd
          exact ⟨st, hst, by tauto⟩
        · intro st hst
          obtain ⟨hn, hl, ho⟩ := h6
          simp only [List.all_eq_true, decide_eq_true_eq] at hn hl ho
          exact ⟨hn st hst, hl st hst, ho st hst⟩
      · rintro _
        exact ⟨_, rfl⟩
  · intro ds m hm
    unfold mkSensor at hm
    dsimp only at hm
    split_ifs at hm <;>
      first
        | exact hm.elim
        | (injection hm with hm; rw [← hm])
        | injection hm

/-- Witness for C6: a valid quadruple is accepted, and its resolved location
is Outside. -/
theorem C6_witness :
    (∃ m, mkSensor [mkDS "A" 1, mkDS "A" 2, mkDS "B" 1, mkDS "B" 2] = .ok m) ∧
    ∀ m, mkSensor [mkDS "A" 1, mkDS "A" 2, mkDS "B" 1, mkDS "B" 2] = .ok m →
      m.loc = "outside" := by
  constructor
  · exact (C6_sensor_validation.1 _).2 (by decide)
  · intro m hm
    have h := C6_sensor_validation.2.1 _ m hm
    rw [h]
    decide

/-! ### `DataStream.__init__` — file-name identity parsing (air.py lines 373-476)

String operations are modelled over `List Char`.  `splitOnL` is Python's
`str.split(sep)` (split on every non-overlapping occurrence, left to right);
`wsSplit` is Python's `str.split()` (split on whitespace runs, dropping
empties); `trimL` is `str.strip()`. -/

deriving instance DecidableEq for Except

/-- `str.split(sep)` worker; the fuel (initialized to the string length)
only bounds the recursion and is never exhausted. -/
def splitOnFuel (sep : List Char) : ℕ → List Char → List Char → List (List Char)
  | 0, l, acc => [acc.reverse ++ l]
  | fuel + 1, l, acc =>
    match l with
    | [] => [acc.reverse]
    | c :: rest =>
      if sep.isPrefixOf (c :: rest) then
        acc.reverse :: splitOnFuel sep fuel ((c :: rest).drop sep.length) []
      else
        splitOnFuel sep fuel rest (c :: acc)

/-- Python `s.split(sep)` for a non-empty separator. -/
def splitOnL (sep s : List Char) : List (List Char) :=
  if sep.isEmpty then [s] else splitOnFuel sep s.length s []

/-- Python `s.split()` worker. -/
def wsSplitAux : List Char → List Char → List (List Char)
  | [], acc => if acc.isEmpty then [] else [acc.reverse]
  | c :: rest, acc =>
    if c.isWhitespace then
      if acc.isEmpty then wsSplitAux rest [] else acc.reverse :: wsSplitAux rest []
    else
      wsSplitAux rest (c :: acc)

/-- Python `s.split()`: tokens separated by whitespace runs. -/
def wsSplit (s : List Char) : List (List Char) := wsSplitAux s []

/-- Python `s.strip()`. -/
def trimL (s : List Char) : List Char :=
  ((s.dropWhile Char.isWhitespace).reverse.dropWhile Char.isWhitespace).reverse

/-- Python `s.lower()` (the data here is ASCII). -/
def toLowerL (s : List Char) : List Char := s.map Char.toLower

/-- Python `pat in s` for a non-empty pattern. -/
def containsL (pat s : List Char) : Bool := s.tails.any fun t => pat.isPrefixOf t

/-- Python `s.endswith(suf)`. -/
def endsWithL (suf s : List Char) : Bool := suf.isSuffixOf s

/-! #### A matcher for the coordinate regex
`r"\([0-9]+.[0-9]+ [-]+[0-9]+.[0-9]+\)"` (air.py line 406)

Note what the pattern literally says: the dots are *unescaped* (they match
any character), and `[-]+` requires *one or more* minus signs before the
second number.  A matcher step maps a remaining input to the list of
possible remainders in the backtracking priority order Python's `re` uses
(for `+`, greedy: longest consumption first); a full match is the first
completion, and `re.search` takes the leftmost position with any match. -/

/-- Match one literal character. -/
def litRun (ch : Char) : List Char → List (List Char)
  | c :: cs => if c = ch then [cs] else []
  | [] => []

/-- Match any single character (the unescaped `.`). -/
def anyRun : List Char → List (List Char)
  | _ :: cs => [cs]
  | [] => []

/-- Match one or more characters satisfying `p`, remainders ordered
longest-consumption first (greedy `+`). -/
def plusRuns (p : Char → Bool) : List Char → List (List Char)
  | c :: cs => if p c then plusRuns p cs ++ [cs] else []
  | [] => []

/-- All completions of the coordinate pattern at the head of the input, in
backtracking priority order. -/
def tokMatches (cs : List Char) : List (List Char) :=
  (((((((((litRun '(' cs).bind (plusRuns Char.isDigit)).bind anyRun).bind
    (plusRuns Char.isDigit)).bind (litRun ' ')).bind
    (plusRuns fun c => decide (c = '-'))).bind (plusRuns Char.isDigit)).bind
    anyRun).bind (plusRuns Char.isDigit)).bind (litRun ')')

/-- `re.search`: the leftmost match, as (text before it, matched text,
remainder after it). -/
def firstMatch : List Char → Option (List Char × List Char × List Char)
  | [] =>
    match tokMatches [] with
    | rem :: _ => some ([], [], rem)
    | [] => none
  | c :: cs =>
    match tokMatches (c :: cs) with
    | rem :: _ => some ([], (c :: cs).take ((c :: cs).length - rem.length), rem)
    | [] => (firstMatch cs).map fun pt => (c :: pt.1, pt.2.1, pt.2.2)

/-! #### Python `float()` on the extracted coordinate strings -/

/-- Consume a digit run, allowing single underscores between digits
(Python numeric-literal grammar); returns the accumulated value, the number
of digits consumed, and the remainder. -/
def digitPartAux : ℕ → ℕ → List Char → ℕ × ℕ × List Char
  | acc, n, '_' :: c :: cs =>
    if c.isDigit then digitPartAux (acc * 10 + (c.toNat - 48)) (n + 1) cs
    else (acc, n, '_' :: c :: cs)
  | acc, n, c :: cs =>
    if c.isDigit then digitPartAux (acc * 10 + (c.toNat - 48)) (n + 1) cs
    else (acc, n, c :: cs)
  | acc, n, [] => (acc, n, [])

/-- A `digitpart` of the Python float grammar (must start with a digit). -/
def digitPart? : List Char → Option (ℕ × ℕ × List Char)
  | c :: cs => if c.isDigit then some (digitPartAux (c.toNat - 48) 1 cs) else none
  | [] => none

/-- Optional exponent suffix, which must consume the rest of the string. -/
def expPart (sign : ℚ) (m : ℚ) : List Char → Option ℚ
  | [] => some (sign * m)
  | e :: r =>
    if e = 'e' ∨ e = 'E' then
      match r with
      | '-' :: r2 =>
        match digitPart? r2 with
        | some (ev, _, []) => some (sign * m / 10 ^ ev)
        | _ => none
      | '+' :: r2 =>
        match digitPart? r2 with
        | some (ev, _, []) => some (sign * m * 10 ^ ev)
        | _ => none
      | r2 =>
        match digitPart? r2 with
        | some (ev, _, []) => some (sign * m * 10 ^ ev)
        | _ => none
    else none

/-- Mantissa of the Python float grammar: `digitpart [. [digitpart]]` or
`. digitpart`, then an optional exponent. -/
def pyFloatBody (sign : ℚ) (cs : List Char) : Option ℚ :=
  match digitPart? cs with
  | some (ip, _, rest) =>
    match rest with
    | '.' :: r2 =>
      match digitPart? r2 with
      | some (fp, fn, r3) => expPart sign ((ip : ℚ) + (fp : ℚ) / 10 ^ fn) r3
      | none => expPart sign (ip : ℚ) r2
    | _ => expPart sign (ip : ℚ) rest
  | none =>
    match cs with
    | '.' :: r2 =>
      match digitPart? r2 with
      | some (fp, fn, r3) => expPart sign ((fp : ℚ) / 10 ^ fn) r3
      | none => none
    | _ => none

/-- Python `float(s)` on the whitespace-free strings arising here
(`inf`/`nan` spellings cannot occur in them and are not modelled). -/
def pyFloat? : List Char → Option ℚ
  | '-' :: r => pyFloatBody (-1) r
  | '+' :: r => pyFloatBody 1 r
  | r => pyFloatBody 1 r

/-! #### The parser itself -/

/-- `filepath.split("data/purple_air/")[-1]` (air.py line 403). -/
def fnameOf (filepath : String) : List Char :=
  (splitOnL ("data/purple_air/".data) filepath.data).getLastD []

/-- `crd_str[1:-1].split()` (air.py line 412). -/
def coordParts (tok : List Char) : List (List Char) :=
  wsSplit ((tok.drop 1).dropLast)

/-- The three recognized location markers (air.py line 426). -/
def locOptions : List (List Char) :=
  ["(inside)".data, "(outside)".data, "(undefined)".data]

/-- Channel detection (air.py lines 454-463): channel B exactly when the
extracted sensor name ends with the character `B`, which is then removed and
the name stripped. -/
def detectChannel (sensor_name : List Char) : String × List Char :=
  if endsWithL ['B'] sensor_name then ("B", trimL sensor_name.dropLast)
  else ("A", sensor_name)

/-- The part of `DataStream.__init__` after the coordinate token was found:
coordinate extraction, location scan, channel detection and data type
(air.py lines 409-476). -/
def afterCoords (filepath : String) (filename crd_str : List Char) : Except String DS :=
  match coordParts crd_str with
  | [lat_str, lon_str] =>
    match pyFloat? lat_str, pyFloat? lon_str with
    | some lat, some lon =>
      let fname_parts := splitOnL crd_str filename
      let name_loc := fname_parts.getD 0 []
      let type_info := fname_parts.getD 1 []
      -- Location loop (air.py lines 429-452).  The loop does not break, so
      -- when several markers occur the *last* matching option wins; the
      -- original-case `name_loc` is split on the lower-case marker.
      let found := locOptions.filter fun opt => containsL opt (toLowerL name_loc)
      let locName : String × List Char :=
        match found.getLast? with
        | some opt =>
          (⟨(opt.drop 1).dropLast⟩, trimL ((splitOnL opt name_loc).getD 0 []))
        | none =>
          ("undefined",
           if containsL "(".data name_loc then
             trimL ((splitOnL "(".data name_loc).getD 0 [])
           else trimL name_loc)
      let chanName := detectChannel locName.2
      -- Data type (air.py lines 469-476).
      let data_type : ℤ :=
        if containsL "Primary".data type_info then 1
        else if containsL "Secondary".data type_info then 2
        else 0
      .ok { filepath := filepath, filename := ⟨filename⟩,
            lat := lat, lon := lon, loc := locName.1,
            sensor_name := ⟨toLowerL chanName.2⟩,
            channel := chanName.1, data_type := data_type }
    | _, _ => .error "could not convert string to float"
  | _ => .error "cannot unpack coordinate pair (expected 2 values)"

/-- `DataStream.__init__` (air.py lines 373-476).  The input here is always a
string, so the source's `TypeError` branch cannot fire. -/
def dsInit (filepath : String) : Except String DS :=
  if ¬ endsWithL ".csv".data filepath.data then
    .error "Input file must have .csv extension."
  else
    match firstMatch (fnameOf filepath) with
    | none => .error "Cannot determine lat/lon coordinates."
    | some (_, crd_str, _) => afterCoords filepath (fnameOf filepath) crd_str

theorem afterCoords_ne_coords (fp : String) (fn tok : List Char) :
    afterCoords fp fn tok ≠ .error "Cannot determine lat/lon coordinates." := by
  unfold afterCoords
  split
  · split
    · simp
    · simp
  · simp

theorem afterCoords_ok (fp : String) (fn tok : List Char) (ds : DS)
    (h : afterCoords fp fn tok = .ok ds) :
    ∃ latS lonS, coordParts tok = [latS, lonS] ∧
      pyFloat? latS = some ds.lat ∧ pyFloat? lonS = some ds.lon := by
  unfold afterCoords at h
  split at h
  · split at h
    · rename_i x1 lat_str lon_str heq x2 x3 lat lon hlat hlon
      simp only [Except.ok.injEq] at h
      subst h
      exact ⟨lat_str, lon_str, heq, hlat, hlon⟩
    · simp at h
  · simp at h

/-! #### The claim's coordinate token (second number's minus sign optional) -/

/-- An optional single minus sign (what the claim says the pattern allows). -/
def optMinus (cs : List Char) : List (List Char) := (litRun '-' cs) ++ [cs]

/-- A decimal number in the plain sense: digits, a dot, digits. -/
def decNum (cs : List Char) : List (List Char) :=
  ((plusRuns Char.isDigit cs).bind (litRun '.')).bind (plusRuns Char.isDigit)

/-- The claim's reading of the coordinate token: a parenthesized pair of two
decimal numbers separated by whitespace, the second *allowed but not
required* a leading minus sign. -/
def specTokMatches (cs : List Char) : List (List Char) :=
  (((((litRun '(' cs).bind decNum).bind (plusRuns Char.isWhitespace)).bind
    optMinus).bind decNum).bind (litRun ')')

/-- Whether the claim's coordinate token occurs anywhere in the name. -/
def specHasToken (s : List Char) : Bool :=
  s.tails.any fun t => !(specTokMatches t).isEmpty

/-- **C7 counterexample**: `"Sensor (47.6 122.3) Primary.csv"` contains a
coordinate token in the claim's sense (the minus sign being optional), yet
identity parsing raises the missing-coordinates parse error: the source
regex `[-]+` *requires* a minus sign on the longitude. -/
theorem C7_counterexample :
    specHasToken "Sensor (47.6 122.3) Primary.csv".data = true ∧
    dsInit "Sensor (47.6 122.3) Primary.csv" =
      .error "Cannot determine lat/lon coordinates." :=
  ⟨by decide, by decide⟩

/-- **C7 (amended)**: for every `.csv` file name, identity parsing fails with
the missing-coordinates parse error — never substituting default
coordinates — exactly when the name contains no token of the source regex
`\([0-9]+.[0-9]+ [-]+[0-9]+.[0-9]+\)` (dots match any character and the
second number *requires* one or more leading minus signs); when parsing
succeeds, the latitude and longitude are the float values extracted from the
leftmost such token (for degenerate wildcard matches the number conversion
itself can still fail, with a different error). -/
theorem C7_coordinate_parsing (s : String)
    (hcsv : endsWithL ".csv".data s.data = true) :
    ((dsInit s = .error "Cannot determine lat/lon coordinates.") ↔
      firstMatch (fnameOf s) = none) ∧
    (∀ ds : DS, dsInit s = .ok ds →
      ∃ pre tok rest latS lonS,
        firstMatch (fnameOf s) = some (pre, tok, rest) ∧
        coordParts tok = [latS, lonS] ∧
        pyFloat? latS = some ds.lat ∧ pyFloat? lonS = some ds.lon) := by
  have hneg : ¬¬ endsWithL ".csv".data s.data = true := not_not_intro hcsv
  unfold dsInit
  rw [if_neg hneg]
  cases hFM : firstMatch (fnameOf s) with
  | none =>
    constructor
    · simp
    · intro ds h
      exact absurd h (by simp)
  | some pt =>
    obtain ⟨pre, tok, rest⟩ := pt
    constructor
    · constructor
      · intro h
        exact absurd h (afterCoords_ne_coords _ _ _)
      · intro h
        exact absurd h (by simp)
    · intro ds h
      obtain ⟨latS, lonS, hcp, hlat, hlon⟩ := afterCoords_ok _ _ _ _ h
      exact ⟨pre, tok, rest, latS, lonS, rfl, hcp, hlat, hlon⟩

/-- Witness for C7: a well-formed name does not raise the
missing-coordinates error. -/
theorem C7_witness :
    dsInit "Sensor (47.6 -122.3) Primary.csv" ≠
      .error "Cannot determine lat/lon coordinates." := by
  intro hc
  have h := (C7_coordinate_parsing "Sensor (47.6 -122.3) Primary.csv" (by decide)).1.1 hc
  exact absurd h (by decide)

/-- **C8 counterexample**: the name `LAB` (a single word ending in `B`) is
claimed to keep its final `B` and parse as channel A; the code instead
detects channel B from the bare final character and strips it, yielding
channel B and sensor name `la`. -/
theorem C8_counterexample :
    (dsInit "LAB (outside) (47.0 -122.0) Primary 60_minute_average.csv").map
      (fun ds => (ds.channel, ds.sensor_name)) = .ok ("B", "la") := by
  decide

/-- **C8 (amended)**: during identity parsing, the channel is set to B and
the marker removed (and the name re-stripped) exactly when the extracted
sensor name ends with the *character* `B` — no token boundary is required,
so a name like `LAB` also loses its final `B` — and in every other case the
channel is A and the name is left intact. -/
theorem C8_channel_detection :
    (∀ n : List Char, (detectChannel n).1 = "B" ↔ endsWithL ['B'] n = true) ∧
    (∀ n : List Char, endsWithL ['B'] n = true →
       detectChannel n = ("B", trimL n.dropLast)) ∧
    (∀ n : List Char, endsWithL ['B'] n = false → detectChannel n = ("A", n)) ∧
    (dsInit "Sensor B (outside) (47.0 -122.0) Primary 60_minute_average.csv").map
      (fun ds => (ds.channel, ds.sensor_name)) = .ok ("B", "sensor") := by
  refine ⟨?_, ?_, ?_, by decide⟩
  · intro n
    unfold detectChannel
    split_ifs with h
    · simp [h]
    · simp [h]
  · intro n h
    unfold detectChannel
    rw [if_pos h]
  · intro n h
    unfold detectChannel
    rw [if_neg (by simp [h])]

/-- Witness for C8: the bare final character of `LAB` triggers channel B. -/
theorem C8_witness : (detectChannel "LAB".data).1 = "B" :=
  (C8_channel_detection.1 "LAB".data).2 (by decide)

end PurpleHaze
